import Mathlib

/-!
Shallow embedding of `scripts/generate_voice_samples.py`.

The script fetches a voice list from a text-to-speech service
(`get_voices`), then for each voice either skips (the output file
`<voice>.mp3` already exists and is non-empty) or issues one synthesis
request and writes the returned bytes to that file (`generate_sample`).
With `--force`, `main` first deletes every file in the output directory
matching the glob `*.mp3`.  `main` tallies per-voice results into counts
of `ok` / `skipped` / `error` and exits with code 1 exactly when the
voice list cannot be fetched.

Modelling choices:
* the output directory is a flat map from file name to byte content
  (`none` = the file does not exist); `write_bytes` is modelled as an
  atomic whole-buffer update, following the script's single
  `output_path.write_bytes(resp.content)` call;
* the remote service and the writability of the filesystem are an
  environment (`Env`) the run is parameterised over: a response per
  request, where `PostResponse.failure` covers a transport error, a
  timeout and a non-success status surfaced by `raise_for_status`;
* the concurrent fan-out (`ThreadPoolExecutor` + `as_completed`) is
  modelled as a fold over the voice list in completion order; every work
  item reads and writes only its own output path, which the frame and
  isolation lemmas below make explicit;
* the `size_kb` entry of an `ok` result dict is modelled by the raw byte
  count of the response body (the script derives `size_kb` from it by a
  fixed rounding, which no claim depends on);
* `OUTPUT_DIR.glob("*.mp3")` is modelled as the set of names ending in
  `.mp3` (pathlib's `*` also matches names starting with a dot).
-/

/-- Raw bytes of a file or of an HTTP response body. -/
abbrev Bytes := List Nat

/-- The output directory: a map from file name to content; `none` means
the file does not exist. -/
abbrev FS := String → Option Bytes

/-- The empty output directory. -/
def emptyFS : FS := fun _ => none

/-- Write a whole file at once, as `Path.write_bytes` does. -/
def writeFile (fs : FS) (p : String) (b : Bytes) : FS :=
  fun q => if q = p then some b else fs q

/-- The check `output_path.exists() and output_path.stat().st_size > 0`
of `generate_sample`. -/
def fileExistsNonempty (fs : FS) (p : String) : Bool :=
  match fs p with
  | some b => decide (0 < b.length)
  | none => false

/-- Status tag of a per-voice result dict in the script:
`"ok"`, `"skipped"` or `"error"`. -/
inductive SampleStatus where
  | ok
  | skipped
  | error
deriving DecidableEq, Repr

/-- The result dict returned by `generate_sample`: always a `voice` and a
`status`; a `path` for `ok` and `skipped`, a byte count for `ok` (the
script reports it as `size_kb`), an error description for `error`. -/
structure SampleResult where
  voice : String
  status : SampleStatus
  path : Option String
  sizeBytes : Option Nat
  err : Option String
deriving DecidableEq, Repr

/-- Outcome of one `POST {base_url}/v1/audio/speech` request:
`success body` is a 2xx response with raw audio bytes `body`; `failure`
covers a transport error, a timeout and the exception raised by
`raise_for_status` on a non-success status. -/
inductive PostResponse where
  | success (body : Bytes)
  | failure (msg : String)
deriving DecidableEq, Repr

/-- Outcome of `GET {base_url}/v1/audio/voices` as consumed by
`get_voices`: a voice list, or the exception message on a connection
failure or non-success status. -/
inductive VoicesResponse where
  | success (voices : List String)
  | failure (msg : String)
deriving DecidableEq, Repr

/-- Environment of a single `generate_sample` call: the service's
response to this voice's synthesis request, and whether the
`write_bytes` call would succeed (with the exception text if not). -/
structure VoiceEnv where
  post : PostResponse
  writeOk : Bool
  writeErr : String
deriving DecidableEq, Repr

/-- The deterministic output path `output_dir / f"{voice}.mp3"`
(the directory is modelled as flat, so the name alone is the path). -/
def output_path (voice : String) : String :=
  voice ++ (".mp3")

/-- What one work item did: its result dict, the directory afterwards,
and whether it issued a synthesis request. -/
structure GenOutcome where
  result : SampleResult
  fs : FS
  requested : Bool

/-- `generate_sample(api_url, voice, output_dir)`: skip if the output
file exists and is non-empty; otherwise issue the synthesis request and
write the body, converting any failure into an `error` result. -/
def generate_sample (e : VoiceEnv) (voice : String) (fs : FS) : GenOutcome :=
  let path := output_path voice
  if fileExistsNonempty fs path then
    { result := { voice := voice, status := .skipped, path := some path,
                  sizeBytes := none, err := none },
      fs := fs, requested := false }
  else
    match e.post with
    | .failure msg =>
        { result := { voice := voice, status := .error, path := none,
                      sizeBytes := none, err := some msg },
          fs := fs, requested := true }
    | .success body =>
        if e.writeOk then
          { result := { voice := voice, status := .ok, path := some path,
                        sizeBytes := some body.length, err := none },
            fs := writeFile fs path body, requested := true }
        else
          { result := { voice := voice, status := .error, path := none,
                        sizeBytes := none, err := some e.writeErr },
            fs := fs, requested := true }

/-- Environment of a whole run: the voice-listing response and, per
voice, the behaviour of its synthesis request and write. -/
structure Env where
  voicesResp : VoicesResponse
  postFor : String → PostResponse
  writeOkFor : String → Bool
  writeErrFor : String → String

/-- The per-voice slice of a run environment. -/
def Env.voiceEnv (env : Env) (v : String) : VoiceEnv :=
  { post := env.postFor v, writeOk := env.writeOkFor v,
    writeErr := env.writeErrFor v }

/-- `get_voices(api_url)`: the voice list, or the exception that
`main` catches and turns into `sys.exit(1)`. -/
def get_voices (env : Env) : Except String (List String) :=
  match env.voicesResp with
  | .success vs => .ok vs
  | .failure m => .error m

/-- The glob `*.mp3` on a file name: the name ends in `.mp3`. -/
def matchesMp3Glob (p : String) : Bool :=
  decide ((".mp3").data <:+ p.data)

/-- The `--force` cleanup loop
`for f in OUTPUT_DIR.glob("*.mp3"): f.unlink()`. -/
def clearMp3 (fs : FS) : FS :=
  fun p => if matchesMp3Glob p then none else fs p

/-- The dispatch-and-collect loop of `main`: one `generate_sample` work
item per element of the voice list, results gathered in completion
order.  Returns the result list, the final directory and the number of
synthesis requests issued. -/
def runBatch (env : Env) (voices : List String) (fs : FS) :
    List SampleResult × FS × Nat :=
  match voices with
  | [] => ([], fs, 0)
  | v :: rest =>
      let o := generate_sample (env.voiceEnv v) v fs
      let r := runBatch env rest o.fs
      (o.result :: r.1, r.2.1, (if o.requested then 1 else 0) + r.2.2)

/-- The tally dict `results = {"ok": 0, "skipped": 0, "error": 0}`. -/
structure Tally where
  ok : Nat
  skipped : Nat
  error : Nat
deriving DecidableEq, Repr

/-- One `results[status] += 1` step. -/
def bump (t : Tally) (s : SampleStatus) : Tally :=
  match s with
  | .ok => { t with ok := t.ok + 1 }
  | .skipped => { t with skipped := t.skipped + 1 }
  | .error => { t with error := t.error + 1 }

/-- The tally accumulated over all completed work items (incrementing a
counter per result commutes, so the completion order is irrelevant). -/
def tallyOf : List SampleResult → Tally
  | [] => { ok := 0, skipped := 0, error := 0 }
  | r :: rs => bump (tallyOf rs) r.status

/-- Observable outcome of one `main()` run: process exit code, printed
tally, the per-voice results, the final directory, and how many
synthesis requests were issued. -/
structure RunOutcome where
  exitCode : Nat
  tally : Tally
  results : List SampleResult
  fs : FS
  postCount : Nat

namespace Script

/-- `main()`: fetch the voices (exit 1 on failure before any synthesis
work), clear `*.mp3` files if `--force`, run the batch, tally. -/
def main (env : Env) (force : Bool) (fs : FS) : RunOutcome :=
  match get_voices env with
  | .error _ =>
      { exitCode := 1, tally := { ok := 0, skipped := 0, error := 0 },
        results := [], fs := fs, postCount := 0 }
  | .ok voices =>
      let fs0 := if force then clearMp3 fs else fs
      let r := runBatch env voices fs0
      { exitCode := 0, tally := tallyOf r.1, results := r.1,
        fs := r.2.1, postCount := r.2.2 }

end Script

/-! Concrete environments and directories used to instantiate the
theorems below on closed inputs. -/

/-- A healthy environment: one voice, synthesis succeeds with a
three-byte body, writes succeed. -/
def envHealthy : Env :=
  { voicesResp := .success [("af_bella")],
    postFor := fun _ => .success [1, 2, 3],
    writeOkFor := fun _ => true,
    writeErrFor := fun _ => "" }

/-- An environment whose synthesis succeeds but returns an empty body. -/
def envEmptyBody : Env :=
  { voicesResp := .success [("af_bella")],
    postFor := fun _ => .success [],
    writeOkFor := fun _ => true,
    writeErrFor := fun _ => "" }

/-- An environment whose synthesis request fails (e.g. a timeout). -/
def envPostFails : Env :=
  { voicesResp := .success [("af_bella")],
    postFor := fun _ => .failure ("timeout"),
    writeOkFor := fun _ => true,
    writeErrFor := fun _ => "" }

/-- An environment where the voice list cannot be fetched. -/
def envDown : Env :=
  { voicesResp := .failure ("connection refused"),
    postFor := fun _ => .success [1, 2, 3],
    writeOkFor := fun _ => true,
    writeErrFor := fun _ => "" }

/-- A directory already holding a non-empty sample for `af_bella`. -/
def fsPre : FS := writeFile emptyFS (output_path ("af_bella")) [7]

/-- A directory holding an empty (zero-byte) sample for `af_bella`. -/
def fsEmptySample : FS := writeFile emptyFS (output_path ("af_bella")) []

/-- A directory holding a non-mp3 file next to a sample. -/
def fsMixed : FS :=
  writeFile (writeFile emptyFS (output_path ("af_bella")) [7])
    ("notes.txt") [9]

/-- A two-voice environment where everything succeeds. -/
def envTwo : Env :=
  { voicesResp := .success [("af_bella"), ("am_adam")],
    postFor := fun _ => .success [1, 2, 3],
    writeOkFor := fun _ => true,
    writeErrFor := fun _ => "" }

/-- The two-voice environment with the synthesis request for
`af_bella` failing and the other voice untouched. -/
def envTwoBellaFails : Env :=
  { voicesResp := .success [("af_bella"), ("am_adam")],
    postFor := fun w =>
      if w = ("af_bella") then .failure ("timeout") else .success [1, 2, 3],
    writeOkFor := fun _ => true,
    writeErrFor := fun _ => "" }

/-- An environment whose voice-listing endpoint returns a duplicate
voice identifier. -/
def envDup : Env :=
  { voicesResp := .success [("af_bella"), ("af_bella")],
    postFor := fun _ => .success [1, 2, 3],
    writeOkFor := fun _ => true,
    writeErrFor := fun _ => "" }

/-! Helper lemmas about one work item. -/

/-- A work item touches no file other than its own output path. -/
theorem generate_sample_fs_frame (e : VoiceEnv) (v : String) (fs : FS)
    (p : String) (hp : p ≠ output_path v) :
    (generate_sample e v fs).fs p = fs p := by
  unfold generate_sample
  cases hex : fileExistsNonempty fs (output_path v) <;> simp only [hex]
  · cases e.post with
    | failure msg => simp
    | success body =>
        cases hw : e.writeOk <;> simp [hw, writeFile, hp]
  · simp

/-- When the output file already exists non-empty, the item skips:
it reports `skipped`, issues no request and leaves the directory
untouched. -/
theorem generate_sample_skip (e : VoiceEnv) (v : String) (fs : FS)
    (hex : fileExistsNonempty fs (output_path v) = true) :
    (generate_sample e v fs).result =
      { voice := v, status := .skipped, path := some (output_path v),
        sizeBytes := none, err := none } ∧
    (generate_sample e v fs).fs = fs ∧
    (generate_sample e v fs).requested = false := by
  unfold generate_sample
  simp [hex]

/-- When the output file is missing or empty, the item issues exactly
one request and never reports `skipped`. -/
theorem generate_sample_attempt (e : VoiceEnv) (v : String) (fs : FS)
    (hex : fileExistsNonempty fs (output_path v) = false) :
    (generate_sample e v fs).requested = true ∧
    (generate_sample e v fs).result.status ≠ .skipped := by
  unfold generate_sample
  cases e.post with
  | failure msg => simp [hex]
  | success body => cases hw : e.writeOk <;> simp [hex, hw]

/-- The existence check reads only the file it is about. -/
theorem fileExistsNonempty_congr (fs1 fs2 : FS) (p : String)
    (h : fs1 p = fs2 p) :
    fileExistsNonempty fs1 p = fileExistsNonempty fs2 p := by
  unfold fileExistsNonempty
  rw [h]

/-- A work item never erases a non-empty file: once an output path holds
content, it still does after any item runs. -/
theorem generate_sample_preserves_nonempty (e : VoiceEnv) (v : String)
    (fs : FS) (p : String) (hp : fileExistsNonempty fs p = true) :
    fileExistsNonempty (generate_sample e v fs).fs p = true := by
  by_cases hpv : p = output_path v
  · subst hpv
    rcases generate_sample_skip e v fs hp with ⟨-, h2, -⟩
    rw [h2]; exact hp
  · rw [fileExistsNonempty_congr _ fs p (generate_sample_fs_frame e v fs p hpv)]
    exact hp

/-- An `error` result means the item attempted (the file was missing or
empty), carries a description, and left the directory unchanged. -/
theorem generate_sample_error_state (e : VoiceEnv) (v : String) (fs : FS)
    (herr : (generate_sample e v fs).result.status = .error) :
    (generate_sample e v fs).fs = fs ∧
    fileExistsNonempty fs (output_path v) = false ∧
    (generate_sample e v fs).result.err ≠ none := by
  unfold generate_sample at herr ⊢
  cases hex : fileExistsNonempty fs (output_path v)
  · cases hpost : e.post with
    | failure msg => simp [hex, hpost]
    | success body =>
        cases hw : e.writeOk <;> simp [hex, hpost, hw] at herr ⊢
  · simp [hex] at herr

/-- An `ok` result with a non-zero reported size leaves the item's own
output file existing and non-empty. -/
theorem generate_sample_ok_nonempty (e : VoiceEnv) (v : String) (fs : FS)
    (hok : (generate_sample e v fs).result.status = .ok)
    (hsz : (generate_sample e v fs).result.sizeBytes ≠ some 0) :
    fileExistsNonempty (generate_sample e v fs).fs (output_path v) = true := by
  unfold generate_sample at hok hsz ⊢
  cases hex : fileExistsNonempty fs (output_path v)
  · cases hpost : e.post with
    | failure msg => simp [hex, hpost] at hok
    | success body =>
        cases hw : e.writeOk <;> simp [hex, hpost, hw] at hok hsz ⊢
        simp [fileExistsNonempty, writeFile]
        exact List.length_pos.mpr hsz
  · simp [hex] at hok

/-! Helper lemmas about output paths. -/

/-- Distinct voices get distinct output paths. -/
theorem output_path_inj (v w : String) (h : output_path v = output_path w) :
    v = w := by
  apply String.ext
  have hd : v.data ++ (".mp3").data = w.data ++ (".mp3").data := by
    have := congrArg String.data h
    simpa [output_path, String.data_append] using this
  exact List.append_cancel_right hd

/-- Every output path matches the `*.mp3` glob. -/
theorem output_path_matchesMp3Glob (v : String) :
    matchesMp3Glob (output_path v) = true := by
  unfold matchesMp3Glob output_path
  rw [decide_eq_true_eq, String.data_append]
  exact List.suffix_append v.data (".mp3").data

/-- The result dict of a work item depends on the directory only
through the content of its own output path. -/
theorem generate_sample_congr_result (e : VoiceEnv) (v : String)
    (fs1 fs2 : FS) (h : fs1 (output_path v) = fs2 (output_path v)) :
    (generate_sample e v fs1).result = (generate_sample e v fs2).result := by
  have hex := fileExistsNonempty_congr fs1 fs2 (output_path v) h
  unfold generate_sample
  dsimp only
  rw [hex]
  cases fileExistsNonempty fs2 (output_path v)
  · cases e.post with
    | failure msg => rfl
    | success body => cases e.writeOk <;> rfl
  · rfl

/-- Whether a work item issues a request depends on the directory only
through the content of its own output path. -/
theorem generate_sample_congr_requested (e : VoiceEnv) (v : String)
    (fs1 fs2 : FS) (h : fs1 (output_path v) = fs2 (output_path v)) :
    (generate_sample e v fs1).requested =
      (generate_sample e v fs2).requested := by
  have hex := fileExistsNonempty_congr fs1 fs2 (output_path v) h
  unfold generate_sample
  dsimp only
  rw [hex]
  cases fileExistsNonempty fs2 (output_path v)
  · cases e.post with
    | failure msg => rfl
    | success body => cases e.writeOk <;> rfl
  · rfl

/-- Work items started from directories agreeing on the item's own
output path leave any file on which the directories agreed agreeing. -/
theorem generate_sample_congr_fs (e : VoiceEnv) (v : String)
    (fs1 fs2 : FS) (h : fs1 (output_path v) = fs2 (output_path v))
    (p : String) (hp : fs1 p = fs2 p) :
    (generate_sample e v fs1).fs p = (generate_sample e v fs2).fs p := by
  have hex := fileExistsNonempty_congr fs1 fs2 (output_path v) h
  unfold generate_sample
  dsimp only
  rw [hex]
  cases fileExistsNonempty fs2 (output_path v)
  · cases e.post with
    | failure msg => exact hp
    | success body =>
        cases e.writeOk
        · exact hp
        · show writeFile fs1 (output_path v) body p =
            writeFile fs2 (output_path v) body p
          unfold writeFile
          by_cases hq : p = output_path v <;> simp [hq, hp]
  · exact hp

/-! Helper lemmas about the batch loop. -/

/-- A work item's result dict names the item's own voice. -/
theorem generate_sample_voice (e : VoiceEnv) (v : String) (fs : FS) :
    (generate_sample e v fs).result.voice = v := by
  unfold generate_sample
  dsimp only
  cases fileExistsNonempty fs (output_path v)
  · cases e.post with
    | failure msg => rfl
    | success body => cases e.writeOk <;> rfl
  · rfl

/-- The batch yields exactly one result per submitted voice, naming that
voice, in submission order. -/
theorem runBatch_voices (env : Env) (voices : List String) (fs : FS) :
    (runBatch env voices fs).1.map (fun r => r.voice) = voices := by
  induction voices generalizing fs with
  | nil => rfl
  | cons v rest ih =>
      unfold runBatch
      dsimp only
      rw [List.map_cons]
      rw [generate_sample_voice, ih]

/-- Every result is counted once, so the three counters sum to the
number of results. -/
theorem tallyOf_sum (rs : List SampleResult) :
    (tallyOf rs).ok + (tallyOf rs).skipped + (tallyOf rs).error =
      rs.length := by
  induction rs with
  | nil => rfl
  | cons r rest ih =>
      unfold tallyOf
      cases r.status <;> simp only [bump, List.length_cons] <;> omega

/-- The batch never erases a non-empty file. -/
theorem runBatch_preserves_nonempty (env : Env) (voices : List String)
    (fs : FS) (p : String) (hp : fileExistsNonempty fs p = true) :
    fileExistsNonempty (runBatch env voices fs).2.1 p = true := by
  induction voices generalizing fs with
  | nil => exact hp
  | cons v rest ih =>
      unfold runBatch
      dsimp only
      exact ih _ (generate_sample_preserves_nonempty _ v fs p hp)

/-- After a batch in which every result is `ok` with a non-zero byte
count, every submitted voice's output file exists non-empty. -/
theorem runBatch_ok_nonempty (env : Env) : ∀ (voices : List String) (fs : FS),
    (∀ r ∈ (runBatch env voices fs).1,
      r.status = SampleStatus.ok ∧ r.sizeBytes ≠ some 0) →
    ∀ v ∈ voices,
      fileExistsNonempty (runBatch env voices fs).2.1 (output_path v) = true := by
  intro voices
  induction voices with
  | nil => intro fs _ v hv; cases hv
  | cons w rest ih =>
      intro fs hok v hv
      unfold runBatch at hok ⊢
      dsimp only at hok ⊢
      rcases List.mem_cons.mp hv with rfl | hv
      · have h0 := hok _ (List.mem_cons_self _ _)
        exact runBatch_preserves_nonempty env rest _ _
          (generate_sample_ok_nonempty _ v fs h0.1 h0.2)
      · exact ih _ (fun r hr => hok r (List.mem_cons_of_mem _ hr)) v hv

/-- A batch over voices whose output files all exist non-empty skips
everything: all results `skipped`, the directory unchanged, no requests. -/
theorem runBatch_all_skip (env : Env) : ∀ (voices : List String) (fs : FS),
    (∀ v ∈ voices, fileExistsNonempty fs (output_path v) = true) →
    (∀ r ∈ (runBatch env voices fs).1, r.status = SampleStatus.skipped) ∧
    (runBatch env voices fs).2.1 = fs ∧ (runBatch env voices fs).2.2 = 0 := by
  intro voices
  induction voices with
  | nil => exact fun fs _ => ⟨fun r hr => absurd hr (List.not_mem_nil r), rfl, rfl⟩
  | cons w rest ih =>
      intro fs hex
      have hw := hex w (List.mem_cons_self _ _)
      rcases generate_sample_skip (env.voiceEnv w) w fs hw with ⟨h1, h2, h3⟩
      unfold runBatch
      dsimp only
      rw [h1, h2, h3]
      have hrest := ih fs (fun v hv => hex v (List.mem_cons_of_mem _ hv))
      refine ⟨?_, hrest.2.1, ?_⟩
      · intro r hr
        rcases List.mem_cons.mp hr with rfl | hr
        · rfl
        · exact hrest.1 r hr
      · rw [hrest.2.2]
        rfl

/-- A batch over a duplicate-free voice set none of whose output files
exist non-empty attempts every item: one request per voice and no
`skipped` result. -/
theorem runBatch_fresh (env : Env) : ∀ (voices : List String) (fs : FS),
    voices.Nodup →
    (∀ v ∈ voices, fileExistsNonempty fs (output_path v) = false) →
    (runBatch env voices fs).2.2 = voices.length ∧
    ∀ r ∈ (runBatch env voices fs).1, r.status ≠ SampleStatus.skipped := by
  intro voices
  induction voices with
  | nil => exact fun fs _ _ => ⟨rfl, fun r hr => absurd hr (List.not_mem_nil r)⟩
  | cons w rest ih =>
      intro fs hnd hex
      unfold runBatch
      dsimp only
      have hw := hex w (List.mem_cons_self _ _)
      rcases generate_sample_attempt (env.voiceEnv w) w fs hw with ⟨hreq, hst⟩
      have hrest : ∀ v ∈ rest,
          fileExistsNonempty (generate_sample (env.voiceEnv w) w fs).fs
            (output_path v) = false := by
        intro v hv
        have hvw : v ≠ w := fun hc => (List.nodup_cons.mp hnd).1 (hc ▸ hv)
        have hpp : output_path v ≠ output_path w :=
          fun hc => hvw (output_path_inj _ _ hc)
        rw [fileExistsNonempty_congr _ fs _
          (generate_sample_fs_frame _ _ _ _ hpp)]
        exact hex v (List.mem_cons_of_mem _ hv)
      have hih := ih _ ((List.nodup_cons.mp hnd).2) hrest
      constructor
      · rw [hreq, hih.1]
        simp [Nat.add_comm]
      · intro r hr
        rcases List.mem_cons.mp hr with rfl | hr
        · exact hst
        · exact hih.2 r hr

/-- Isolation of work items: change the service's or the filesystem's
behaviour for one voice `v` only (and the starting directories only at
`v`'s output path), and every work item for a voice other than `v`
produces the identical result; the directories stay identical away from
`v`'s output path. -/
theorem runBatch_isolated (env1 env2 : Env) (v : String)
    (henv : ∀ w, w ≠ v → env1.voiceEnv w = env2.voiceEnv w) :
    ∀ (voices : List String) (fs1 fs2 : FS),
    (∀ p, p ≠ output_path v → fs1 p = fs2 p) →
    (∀ p, p ≠ output_path v →
      (runBatch env1 voices fs1).2.1 p = (runBatch env2 voices fs2).2.1 p) ∧
    ∀ (i : Nat) (w : String), voices[i]? = some w → w ≠ v →
      (runBatch env1 voices fs1).1[i]? = (runBatch env2 voices fs2).1[i]? := by
  intro voices
  induction voices with
  | nil =>
      intro fs1 fs2 hfs
      refine ⟨fun p hp => hfs p hp, fun i w hi _ => ?_⟩
      simp at hi
  | cons w0 rest ih =>
      intro fs1 fs2 hfs
      unfold runBatch
      dsimp only
      by_cases hw0 : w0 = v
      · subst hw0
        have hstep : ∀ p, p ≠ output_path w0 →
            (generate_sample (env1.voiceEnv w0) w0 fs1).fs p =
            (generate_sample (env2.voiceEnv w0) w0 fs2).fs p := by
          intro p hp
          rw [generate_sample_fs_frame _ _ _ p hp,
              generate_sample_fs_frame _ _ _ p hp]
          exact hfs p hp
        have hrest := ih _ _ hstep
        refine ⟨hrest.1, ?_⟩
        intro i w hi hwv
        cases i with
        | zero =>
            rw [List.getElem?_cons_zero] at hi
            exact absurd (Option.some.inj hi).symm hwv
        | succ n =>
            rw [List.getElem?_cons_succ] at hi
            simpa using hrest.2 n w hi hwv
      · have henvw := henv w0 hw0
        have hpath : output_path w0 ≠ output_path v :=
          fun hc => hw0 (output_path_inj w0 v hc)
        have hw0fs : fs1 (output_path w0) = fs2 (output_path w0) := hfs _ hpath
        have hres : (generate_sample (env1.voiceEnv w0) w0 fs1).result =
            (generate_sample (env2.voiceEnv w0) w0 fs2).result := by
          rw [henvw]
          exact generate_sample_congr_result _ _ _ _ hw0fs
        have hstep : ∀ p, p ≠ output_path v →
            (generate_sample (env1.voiceEnv w0) w0 fs1).fs p =
            (generate_sample (env2.voiceEnv w0) w0 fs2).fs p := by
          intro p hp
          rw [henvw]
          exact generate_sample_congr_fs _ _ _ _ hw0fs p (hfs p hp)
        have hrest := ih _ _ hstep
        refine ⟨hrest.1, ?_⟩
        intro i w hi hwv
        cases i with
        | zero =>
            rw [List.getElem?_cons_zero, List.getElem?_cons_zero]
            rw [hres]
        | succ n =>
            rw [List.getElem?_cons_succ] at hi
            rw [List.getElem?_cons_succ, List.getElem?_cons_succ]
            exact hrest.2 n w hi hwv

/-- Unfolding of a run whose voice fetch succeeds. -/
theorem Script.main_success (env : Env) (voices : List String)
    (force : Bool) (fs : FS)
    (h : env.voicesResp = VoicesResponse.success voices) :
    Script.main env force fs =
      { exitCode := 0,
        tally := tallyOf
          (runBatch env voices (if force then clearMp3 fs else fs)).1,
        results := (runBatch env voices (if force then clearMp3 fs else fs)).1,
        fs := (runBatch env voices (if force then clearMp3 fs else fs)).2.1,
        postCount :=
          (runBatch env voices (if force then clearMp3 fs else fs)).2.2 } := by
  unfold Script.main get_voices
  rw [h]

/-- Unfolding of a run whose voice fetch fails. -/
theorem Script.main_failure (env : Env) (m : String)
    (force : Bool) (fs : FS)
    (h : env.voicesResp = VoicesResponse.failure m) :
    Script.main env force fs =
      { exitCode := 1, tally := { ok := 0, skipped := 0, error := 0 },
        results := [], fs := fs, postCount := 0 } := by
  unfold Script.main get_voices
  rw [h]

/-! Claim theorems. -/

/-- Claim C1: for every run that completes, the final tally satisfies
generated + skipped + failed = number of voice identifiers returned by
the voice-listing endpoint, with exactly one terminal outcome per
requested voice (the result list names the requested voices
one-for-one). -/
theorem C1_tally_correct (env : Env) (voices : List String) (force : Bool)
    (fs : FS) (h : env.voicesResp = VoicesResponse.success voices) :
    (Script.main env force fs).tally.ok +
      (Script.main env force fs).tally.skipped +
      (Script.main env force fs).tally.error = voices.length ∧
    (Script.main env force fs).results.map (fun r => r.voice) = voices := by
  rw [Script.main_success env voices force fs h]
  constructor
  · rw [tallyOf_sum]
    simpa using congrArg List.length
      (runBatch_voices env voices (if force then clearMp3 fs else fs))
  · exact runBatch_voices env voices (if force then clearMp3 fs else fs)

/-- Witness for C1 at a healthy one-voice run. -/
theorem C1_tally_correct_witness :
    envHealthy.voicesResp = VoicesResponse.success [("af_bella")] ∧
    ((Script.main envHealthy false emptyFS).tally.ok +
      (Script.main envHealthy false emptyFS).tally.skipped +
      (Script.main envHealthy false emptyFS).tally.error =
        [("af_bella")].length ∧
    (Script.main envHealthy false emptyFS).results.map (fun r => r.voice) =
      [("af_bella")]) :=
  ⟨rfl, C1_tally_correct envHealthy [("af_bella")] false emptyFS rfl⟩

/-- Claim C2: if the deterministic output path for a voice exists and is
non-empty, `generate_sample` returns `skipped` immediately, issues no
synthesis request and leaves the directory unchanged.  (The item never
consults the force flag itself — with `--force` the file was deleted
beforehand — so this holds a fortiori whenever force-overwrite was not
requested.) -/
theorem C2_skip_no_request (e : VoiceEnv) (v : String) (fs : FS)
    (hex : fileExistsNonempty fs (output_path v) = true) :
    (generate_sample e v fs).result.status = SampleStatus.skipped ∧
    (generate_sample e v fs).requested = false ∧
    (generate_sample e v fs).fs = fs := by
  rcases generate_sample_skip e v fs hex with ⟨h1, h2, h3⟩
  exact ⟨by rw [h1], h3, h2⟩

/-- Witness for C2 at a directory already holding a non-empty sample. -/
theorem C2_skip_no_request_witness :
    fileExistsNonempty fsPre (output_path ("af_bella")) = true ∧
    ((generate_sample (envHealthy.voiceEnv ("af_bella")) ("af_bella")
        fsPre).result.status = SampleStatus.skipped ∧
    (generate_sample (envHealthy.voiceEnv ("af_bella")) ("af_bella")
        fsPre).requested = false ∧
    (generate_sample (envHealthy.voiceEnv ("af_bella")) ("af_bella")
        fsPre).fs = fsPre) :=
  ⟨by decide, C2_skip_no_request (envHealthy.voiceEnv ("af_bella"))
    ("af_bella") fsPre (by decide)⟩

/-- Claim C5: the process exits with code 1 exactly when the voice list
cannot be fetched, in which case no synthesis request is made and no
per-voice work happens; a run whose voice fetch succeeds exits with
code 0 whatever the per-voice results are. -/
theorem C5_exit_code (env : Env) (force : Bool) (fs : FS) :
    ((Script.main env force fs).exitCode = 1 ↔
      ∃ m, env.voicesResp = VoicesResponse.failure m) ∧
    ((∃ m, env.voicesResp = VoicesResponse.failure m) →
      (Script.main env force fs).postCount = 0 ∧
      (Script.main env force fs).results = []) ∧
    ((∃ vs, env.voicesResp = VoicesResponse.success vs) →
      (Script.main env force fs).exitCode = 0) := by
  cases hv : env.voicesResp with
  | success vs =>
      rw [Script.main_success env vs force fs hv]
      refine ⟨⟨fun h => ?_, fun h => ?_⟩, fun h => ?_, fun _ => rfl⟩
      · simp at h
      · rcases h with ⟨m, hm⟩
        cases hm
      · rcases h with ⟨m, hm⟩
        cases hm
  | failure m =>
      rw [Script.main_failure env m force fs hv]
      refine ⟨⟨fun _ => ⟨m, rfl⟩, fun _ => rfl⟩, fun _ => ⟨rfl, rfl⟩,
        fun h => ?_⟩
      rcases h with ⟨vs, hc⟩
      cases hc

/-- Witness for C5 at an unreachable voice-listing endpoint. -/
theorem C5_exit_code_witness :
    ((Script.main envDown false emptyFS).exitCode = 1 ↔
      ∃ m, envDown.voicesResp = VoicesResponse.failure m) ∧
    ((∃ m, envDown.voicesResp = VoicesResponse.failure m) →
      (Script.main envDown false emptyFS).postCount = 0 ∧
      (Script.main envDown false emptyFS).results = []) ∧
    ((∃ vs, envDown.voicesResp = VoicesResponse.success vs) →
      (Script.main envDown false emptyFS).exitCode = 0) :=
  C5_exit_code envDown false emptyFS

/-- Claim C10: the force-flag cleanup removes exactly the files whose
names match the glob `*.mp3`: any other file in the output directory is
left unchanged (and the cleanup reads or writes nothing outside the
output directory, which the embedding models as the whole filesystem
state). -/
theorem C10_force_frame (fs : FS) (p : String) :
    (matchesMp3Glob p = false → clearMp3 fs p = fs p) ∧
    (matchesMp3Glob p = true → clearMp3 fs p = none) := by
  unfold clearMp3
  constructor <;> intro h <;> simp [h]

/-- Witness for C10 at a directory holding a non-mp3 file. -/
theorem C10_force_frame_witness :
    ((matchesMp3Glob ("notes.txt") = false →
      clearMp3 fsMixed ("notes.txt") = fsMixed ("notes.txt")) ∧
     (matchesMp3Glob ("notes.txt") = true →
      clearMp3 fsMixed ("notes.txt") = none)) ∧
    matchesMp3Glob ("notes.txt") = false ∧
    clearMp3 fsMixed ("notes.txt") = some [9] :=
  ⟨C10_force_frame fsMixed ("notes.txt"), by decide, by decide⟩

/-- Claim C3: any failure while generating one voice's sample — a
failed request (timeout, transport error or non-success status) or a
write failure — is caught inside `generate_sample` and converted to an
`error` result carrying the failure's description, leaving the
directory unchanged; and the failure never affects any other work item:
every item of the batch for a voice other than the failing one produces
the identical result it would have produced under any other behaviour
of the failing voice. -/
theorem C3_failure_isolated (env1 env2 : Env) (v : String)
    (henv : ∀ w, w ≠ v → env1.voiceEnv w = env2.voiceEnv w)
    (voices : List String) (fs : FS) :
    (∀ (e : VoiceEnv) (fsx : FS) (m : String),
      fileExistsNonempty fsx (output_path v) = false →
      (e.post = PostResponse.failure m ∨
        ((∃ b, e.post = PostResponse.success b) ∧
          e.writeOk = false ∧ e.writeErr = m)) →
      (generate_sample e v fsx).result.status = SampleStatus.error ∧
      (generate_sample e v fsx).result.err = some m ∧
      (generate_sample e v fsx).fs = fsx) ∧
    ∀ (i : Nat) (w : String), voices[i]? = some w → w ≠ v →
      (runBatch env1 voices fs).1[i]? = (runBatch env2 voices fs).1[i]? := by
  constructor
  · intro e fsx m hex hfail
    unfold generate_sample
    dsimp only
    rw [hex]
    rcases hfail with hpost | ⟨⟨b, hb⟩, hw, hm⟩
    · rw [hpost]
      exact ⟨rfl, rfl, rfl⟩
    · rw [hb, hw, hm]
      exact ⟨rfl, rfl, rfl⟩
  · intro i w hi hwv
    exact (runBatch_isolated env1 env2 v henv voices fs fs
      (fun p _ => rfl)).2 i w hi hwv

/-- Witness for C3: the request for one of two voices times out; the
other voice's work item is unaffected. -/
theorem C3_failure_isolated_witness :
    (∀ (e : VoiceEnv) (fsx : FS) (m : String),
      fileExistsNonempty fsx (output_path ("af_bella")) = false →
      (e.post = PostResponse.failure m ∨
        ((∃ b, e.post = PostResponse.success b) ∧
          e.writeOk = false ∧ e.writeErr = m)) →
      (generate_sample e ("af_bella") fsx).result.status =
        SampleStatus.error ∧
      (generate_sample e ("af_bella") fsx).result.err = some m ∧
      (generate_sample e ("af_bella") fsx).fs = fsx) ∧
    ∀ (i : Nat) (w : String),
      [("af_bella"), ("am_adam")][i]? = some w → w ≠ ("af_bella") →
      (runBatch envTwo [("af_bella"), ("am_adam")] emptyFS).1[i]? =
        (runBatch envTwoBellaFails
          [("af_bella"), ("am_adam")] emptyFS).1[i]? :=
  C3_failure_isolated envTwo envTwoBellaFails ("af_bella")
    (by
      intro w hw
      simp [envTwo, envTwoBellaFails, Env.voiceEnv, hw])
    [("af_bella"), ("am_adam")] emptyFS

/-- Claim C4 fails as stated: a service that answers the synthesis
request successfully but with an empty body makes the first run report
`generated` (status `ok`) for its voice, yet the second run without
force does not skip it — the zero-byte output file fails the non-empty
check, so a second synthesis request is issued. -/
theorem C4_counterexample :
    (∀ r ∈ (Script.main envEmptyBody false emptyFS).results,
      r.status = SampleStatus.ok) ∧
    (Script.main envEmptyBody false
      (Script.main envEmptyBody false emptyFS).fs).postCount = 1 ∧
    ∀ r ∈ (Script.main envEmptyBody false
      (Script.main envEmptyBody false emptyFS).fs).results,
      r.status ≠ SampleStatus.skipped := by
  refine ⟨?_, ?_, ?_⟩ <;> decide

/-- Claim C4 amended: running the batch twice with the same voice set
and without force, given the first run returned `generated` with a
non-zero byte count for every voice, makes the second run return
`skipped` for every voice, issue no synthesis requests, and leave every
output file unchanged. -/
theorem C4_idempotent (env1 env2 : Env) (voices : List String) (fs : FS)
    (h1 : env1.voicesResp = VoicesResponse.success voices)
    (h2 : env2.voicesResp = VoicesResponse.success voices)
    (hok : ∀ r ∈ (Script.main env1 false fs).results,
      r.status = SampleStatus.ok ∧ r.sizeBytes ≠ some 0) :
    (∀ r ∈ (Script.main env2 false (Script.main env1 false fs).fs).results,
      r.status = SampleStatus.skipped) ∧
    (Script.main env2 false (Script.main env1 false fs).fs).postCount = 0 ∧
    (Script.main env2 false (Script.main env1 false fs).fs).fs =
      (Script.main env1 false fs).fs := by
  rw [Script.main_success env1 voices false fs h1] at hok ⊢
  rw [Script.main_success env2 voices false _ h2]
  dsimp only at hok ⊢
  simp only [Bool.false_eq_true, if_false] at hok ⊢
  have hne := runBatch_ok_nonempty env1 voices fs hok
  have h := runBatch_all_skip env2 voices (runBatch env1 voices fs).2.1 hne
  exact ⟨h.1, h.2.2, h.2.1⟩

/-- Witness for C4 amended: a healthy first run over one voice with a
three-byte body. -/
theorem C4_idempotent_witness :
    envHealthy.voicesResp = VoicesResponse.success [("af_bella")] ∧
    (∀ r ∈ (Script.main envHealthy false emptyFS).results,
      r.status = SampleStatus.ok ∧ r.sizeBytes ≠ some 0) ∧
    ((∀ r ∈ (Script.main envHealthy false
        (Script.main envHealthy false emptyFS).fs).results,
      r.status = SampleStatus.skipped) ∧
    (Script.main envHealthy false
      (Script.main envHealthy false emptyFS).fs).postCount = 0 ∧
    (Script.main envHealthy false
      (Script.main envHealthy false emptyFS).fs).fs =
      (Script.main envHealthy false emptyFS).fs) :=
  ⟨rfl, by decide,
    C4_idempotent envHealthy envHealthy [("af_bella")] emptyFS rfl rfl
      (by decide)⟩

/-- Claim C6 fails as stated: starting from a directory holding an
empty (zero-byte) output file for the voice — which the script itself
produces when a response body is empty — a failed synthesis leaves that
file in place, so after the run the voice's result is `failed` yet an
output file for it still exists. -/
theorem C6_counterexample :
    (Script.main envPostFails false fsEmptySample).results.map
      (fun r => r.status) = [SampleStatus.error] ∧
    (Script.main envPostFails false fsEmptySample).fs
      (output_path ("af_bella")) = some [] := by
  constructor <;> decide

/-- Claim C6 amended: for every voice whose result is `failed`, the
attempt leaves the voice's output file exactly as it was, and that file
is absent or empty (it never passes the skip check), so the voice is
re-attempted — a subsequent `generate_sample` issues a synthesis
request — on the next run without force. -/
theorem C6_failed_not_skipped (e : VoiceEnv) (v : String) (fs : FS)
    (herr : (generate_sample e v fs).result.status = SampleStatus.error) :
    (generate_sample e v fs).fs = fs ∧
    fileExistsNonempty fs (output_path v) = false ∧
    ∀ e2 : VoiceEnv,
      (generate_sample e2 v ((generate_sample e v fs).fs)).requested =
        true := by
  rcases generate_sample_error_state e v fs herr with ⟨h1, h2, -⟩
  refine ⟨h1, h2, fun e2 => ?_⟩
  rw [h1]
  exact (generate_sample_attempt e2 v fs h2).1

/-- Witness for C6 amended at a timed-out request over an empty
directory entry. -/
theorem C6_failed_not_skipped_witness :
    (generate_sample (envPostFails.voiceEnv ("af_bella")) ("af_bella")
      emptyFS).result.status = SampleStatus.error ∧
    ((generate_sample (envPostFails.voiceEnv ("af_bella")) ("af_bella")
      emptyFS).fs = emptyFS ∧
    fileExistsNonempty emptyFS (output_path ("af_bella")) = false ∧
    ∀ e2 : VoiceEnv,
      (generate_sample e2 ("af_bella")
        ((generate_sample (envPostFails.voiceEnv ("af_bella"))
          ("af_bella") emptyFS).fs)).requested = true) :=
  ⟨by decide,
    C6_failed_not_skipped (envPostFails.voiceEnv ("af_bella"))
      ("af_bella") emptyFS (by decide)⟩

/-- Claim C7: with the force flag set, every file matching `*.mp3` —
which every output file's name does — is removed before any generation
begins, so no voice's work item can find a pre-existing output:
over a duplicate-free voice list, every item issues a synthesis request
and none reports `skipped`, regardless of the prior directory state. -/
theorem C7_force_regenerates (env : Env) (voices : List String) (fs : FS)
    (h : env.voicesResp = VoicesResponse.success voices)
    (hnd : voices.Nodup) :
    (∀ p, matchesMp3Glob p = true → clearMp3 fs p = none) ∧
    (∀ v : String,
      fileExistsNonempty (clearMp3 fs) (output_path v) = false) ∧
    (Script.main env true fs).postCount = voices.length ∧
    ∀ r ∈ (Script.main env true fs).results,
      r.status ≠ SampleStatus.skipped := by
  have hclear : ∀ p, matchesMp3Glob p = true → clearMp3 fs p = none := by
    intro p hp
    unfold clearMp3
    simp [hp]
  have hforce : ∀ v : String,
      fileExistsNonempty (clearMp3 fs) (output_path v) = false := by
    intro v
    unfold fileExistsNonempty
    rw [hclear _ (output_path_matchesMp3Glob v)]
  rw [Script.main_success env voices true fs h]
  dsimp only
  have hif : (if true = true then clearMp3 fs else fs) = clearMp3 fs :=
    if_pos rfl
  rw [hif]
  have hfresh := runBatch_fresh env voices (clearMp3 fs) hnd
    (fun v _ => hforce v)
  exact ⟨hclear, hforce, hfresh.1, hfresh.2⟩

/-- Witness for C7 at a two-voice run forced over a directory already
holding a sample. -/
theorem C7_force_regenerates_witness :
    envTwo.voicesResp =
      VoicesResponse.success [("af_bella"), ("am_adam")] ∧
    [("af_bella"), ("am_adam")].Nodup ∧
    ((∀ p, matchesMp3Glob p = true → clearMp3 fsPre p = none) ∧
    (∀ v : String,
      fileExistsNonempty (clearMp3 fsPre) (output_path v) = false) ∧
    (Script.main envTwo true fsPre).postCount =
      [("af_bella"), ("am_adam")].length ∧
    ∀ r ∈ (Script.main envTwo true fsPre).results,
      r.status ≠ SampleStatus.skipped) :=
  ⟨rfl, by decide,
    C7_force_regenerates envTwo [("af_bella"), ("am_adam")] fsPre rfl
      (by decide)⟩

/-- Claim C8 fails as stated: if the voice-listing endpoint returns a
duplicate voice identifier, the batch dispatches two distinct work
items (indices 0 and 1 of the result list) that compute the same output
path. -/
theorem C8_counterexample :
    (Script.main envDup false emptyFS).results.map (fun r => r.path) =
      [some (output_path ("af_bella")), some (output_path ("af_bella"))] := by
  decide

/-- Claim C8 amended: the output-path map is injective on voice
identifiers, so work items for distinct voices always target distinct
output files; whenever the service returns a duplicate-free voice list,
no two work items of the batch share an output path. -/
theorem C8_distinct_paths (v w : String) (hvw : v ≠ w) :
    output_path v ≠ output_path w ∧
    ∀ voices : List String, voices.Nodup →
      (voices.map output_path).Nodup := by
  constructor
  · exact fun hc => hvw (output_path_inj v w hc)
  · intro voices hnd
    have hinj : Function.Injective output_path := by
      intro a b hab
      exact output_path_inj a b hab
    exact hnd.map hinj

/-- Witness for C8 amended at two concrete distinct voices. -/
theorem C8_distinct_paths_witness :
    ("af_bella" : String) ≠ ("am_adam") ∧
    (output_path ("af_bella") ≠ output_path ("am_adam") ∧
      ∀ voices : List String, voices.Nodup →
        (voices.map output_path).Nodup) ∧
    ([("af_bella"), ("am_adam")].map output_path).Nodup :=
  ⟨by decide,
    C8_distinct_paths ("af_bella") ("am_adam") (by decide),
    (C8_distinct_paths ("af_bella") ("am_adam") (by decide)).2
      [("af_bella"), ("am_adam")] (by decide)⟩
